import Mathlib

/-!
# Netlink transport socket (libnl++ `Socket.cpp`)

A shallow embedding of `android::nl::Socket` from
`automotive/can/1.0/default/libnl++/Socket.cpp`.

* Bytes are naturals (read modulo 256), buffers are lists of bytes.
* The kernel is an oracle: the answer to the n-th call of each system call is
  a function of n.  The socket state carries, next to the C++ members, the
  number of calls made so far (which selects the next answer) and the log.
* The blocking loop of the type-filtered receive takes a fuel argument that
  bounds the number of iterations; the result `none` means that the loop is
  still running when the fuel is used up.
-/

namespace android.nl

/-! ## Wire structures (Linux `netlink.h`) -/

/-- Peer address `sockaddr_nl`; `{}` in the source is the all-zero value. -/
structure sockaddr_nl where
  nl_family : Nat
  nl_pid : Nat
  nl_groups : Nat
deriving DecidableEq, Repr

/-- The value-initialised address `sockaddr_nl sa = {}`. -/
def sockaddr_nl.zero : sockaddr_nl := ⟨0, 0, 0⟩

/-- Netlink record header `nlmsghdr`: length, type, flags, sequence, port id. -/
structure nlmsghdr where
  nlmsg_len : Nat
  nlmsg_type : Nat
  nlmsg_flags : Nat
  nlmsg_seq : Nat
  nlmsg_pid : Nat
deriving DecidableEq, Repr

/-- Payload of an error/ack record, `nlmsgerr`: a signed status and the header
of the request it answers. -/
structure nlmsgerr where
  error : Int
  msg : nlmsghdr
deriving DecidableEq, Repr

/-- Record type of error/ack records. -/
def NLMSG_ERROR : Nat := 2

/-- Size of `nlmsghdr` in bytes. -/
def NLMSG_HDRLEN : Nat := 16

/-- Size of `nlmsgerr` in bytes (a 4-byte status and a header). -/
def NLMSGERR_LEN : Nat := 20

/-- Rounding to the 4-byte record alignment, `NLMSG_ALIGN`. -/
def NLMSG_ALIGN (len : Nat) : Nat := (len + 3) / 4 * 4

/-- Little-endian unsigned 16-bit field at byte offset `off`. -/
def readU16 (bs : List Nat) (off : Nat) : Nat :=
  bs.getD off 0 % 256 + 256 * (bs.getD (off + 1) 0 % 256)

/-- Little-endian unsigned 32-bit field at byte offset `off`. -/
def readU32 (bs : List Nat) (off : Nat) : Nat :=
  readU16 bs off + 65536 * readU16 bs (off + 2)

/-- Little-endian signed 32-bit field (two's complement) at byte offset `off`. -/
def readI32 (bs : List Nat) (off : Nat) : Int :=
  if readU32 bs off < 2 ^ 31 then (readU32 bs off : Int) else (readU32 bs off : Int) - 2 ^ 32

/-- Decoding of an `nlmsghdr` that starts at byte offset `off`. -/
def readHdr (bs : List Nat) (off : Nat) : nlmsghdr :=
  { nlmsg_len := readU32 bs off
    nlmsg_type := readU16 bs (off + 4)
    nlmsg_flags := readU16 bs (off + 6)
    nlmsg_seq := readU32 bs (off + 8)
    nlmsg_pid := readU32 bs (off + 12) }

/-! ## Message buffers -/

/-- Modelled from the spec: the class template `Buffer<T>` of `Buffer.h` is not
part of the sources at hand.  A message buffer is a non-owning view (pointer and
length); the view is represented by the bytes it covers, so its length is the
bound the view was created with. -/
structure Buffer where
  bytes : List Nat
deriving DecidableEq, Repr

/-- Modelled from the spec: `Buffer::getRaw().len()` of the missing `Buffer.h`,
the number of bytes the view covers. -/
def Buffer.len (b : Buffer) : Nat := b.bytes.length

/-- Modelled from the spec: `Buffer::operator->` of the missing `Buffer.h`, read
access to the first header of the view (bytes beyond the view read as zero). -/
def Buffer.hdr (b : Buffer) : nlmsghdr := readHdr b.bytes 0

/-- The length the first header of the view declares (`nlmsg_len`). -/
def Buffer.declaredLength (b : Buffer) : Nat := b.hdr.nlmsg_len

/-- Modelled from the spec: a record is well delimited when its header fits and
the declared length is at least the header size and at most the remaining
bytes. -/
def recordOk (bs : List Nat) : Bool :=
  decide (NLMSG_HDRLEN ≤ bs.length) && decide (NLMSG_HDRLEN ≤ readU32 bs 0)
    && decide (readU32 bs 0 ≤ bs.length)

/-- Walk over the records of a datagram; each record covers its declared length
and the next one starts at the aligned end of the current one. -/
def recordsAux : Nat → List Nat → List Buffer
  | 0, _ => []
  | fuel + 1, bs =>
    if recordOk bs then
      ⟨bs.take (readU32 bs 0)⟩ :: recordsAux fuel (bs.drop (NLMSG_ALIGN (readU32 bs 0)))
    else []

/-- Modelled from the spec: iteration over a `Buffer<nlmsghdr>` (the iterator of
the missing `Buffer.h`), the logically delimited records bundled in one
datagram, in order.  Every step consumes at least a header, so the number of
bytes bounds the number of steps. -/
def Buffer.records (b : Buffer) : List Buffer := recordsAux b.bytes.length b.bytes

/-- Modelled from the spec: the parsed message `Message<nlmsgerr>` of the missing
`Message.h`, the generic header and the typed payload behind it. -/
structure Message_nlmsgerr where
  header : nlmsghdr
  data : nlmsgerr
deriving DecidableEq, Repr

/-- Modelled from the spec: `Message<nlmsgerr>::parse` of the missing `Message.h`.
An error/ack record carries, after the generic header, the status and the header
of the original request; a record too short for that does not parse. -/
def Message_nlmsgerr.parse (buf : Buffer) : Option Message_nlmsgerr :=
  if buf.bytes.length < NLMSG_HDRLEN + NLMSGERR_LEN then none
  else some
    { header := buf.hdr
      data := { error := readI32 buf.bytes NLMSG_HDRLEN
                msg := readHdr buf.bytes (NLMSG_HDRLEN + 4) } }

/-! ## Kernel oracle, log and socket state -/

/-- What one `recvfrom` call answers: the returned byte count (with `MSG_TRUNC`
the real datagram length, or a value `≤ 0`), the bytes the kernel stores (at
most the requested size is stored) and the sender address. -/
structure RecvAnswer where
  bytesReceived : Int
  data : List Nat
  sa : sockaddr_nl
deriving DecidableEq, Repr

/-- The kernel seen from the socket: the answer to the n-th call of each system
call the operations make. -/
structure Kernel where
  sendto : Nat → Int
  recvfrom : Nat → RecvAnswer
  getsockname : Nat → Int × Nat

/-- One line written through `LOG` / `PLOG`, with the values streamed into it. -/
inductive LogEntry where
  | cantOpen
  | cantBind
  | cantSend
  | cantSendTruncated
  | maxSizeZero
  | recvFailed
  | recvTooLarge (bytesReceived : Int) (maxSize : Nat)
  | ackDifferentSeq (got expected : Nat)
  | ackError (strerrorArg : Int)
  | ignoredType (nlmsg_type : Nat)
  | getPidFailed
deriving DecidableEq, Repr

/-- State of a `Socket`: the C++ members `mProtocol`, `mFd`, `mFailed`, `mSeq`,
`mReceiveBuffer`, and as bookkeeping the number of `sendto`, `recvfrom` and
`getsockname` calls made so far and the log written so far. -/
structure Socket where
  mProtocol : Int
  mFd : Int
  mFailed : Bool
  mSeq : Nat
  mReceiveBuffer : List Nat
  nSendto : Nat
  nRecvfrom : Nat
  nGetsockname : Nat
  log : List LogEntry
deriving DecidableEq, Repr

/-- Number of system calls the operations have made on this socket so far. -/
def Socket.syscalls (s : Socket) : Nat := s.nSendto + s.nRecvfrom + s.nGetsockname

/-- Appending one line to the log. -/
def Socket.logLine (s : Socket) (e : LogEntry) : Socket := { s with log := s.log ++ [e] }

/-- The call `std::vector::resize(n)`: keeps the first `n` elements and fills up with
zero bytes. -/
def resize (v : List Nat) (n : Nat) : List Nat := v.take n ++ List.replicate (n - v.length) 0

/-- The kernel stores `data` at the start of the buffer; the rest of the buffer
keeps its bytes. -/
def storeAt (buf data : List Nat) : List Nat := data ++ buf.drop data.length

/-! ## The operations of `Socket.cpp` -/

/-- The constructor `Socket::Socket(protocol, pid, groups)`; `socketRet` and `bindRet`
are the kernel's answers to `socket` and `bind` (bind is only called when the
descriptor is valid, `mFd.ok()` being `fd ≥ 0`).  Members start as declared:
not failed, sequence 0, empty receive buffer. -/
def Socket.create (socketRet bindRet : Int) (protocol : Int) (pid groups : Nat) : Socket :=
  let s0 : Socket :=
    { mProtocol := protocol, mFd := socketRet, mFailed := false, mSeq := 0,
      mReceiveBuffer := [], nSendto := 0, nRecvfrom := 0, nGetsockname := 0, log := [] }
  if socketRet < 0 then
    { s0.logLine LogEntry.cantOpen with mFailed := true }
  else
    let _sa : sockaddr_nl := ⟨16, pid, groups⟩
    if bindRet < 0 then
      { s0.logLine LogEntry.cantBind with mFd := -1, mFailed := true }
    else s0

/-- The method `Socket::send(msg, sa)`. -/
def Socket.send (k : Kernel) (msg : Buffer) (_sa : sockaddr_nl) (s : Socket) : Bool × Socket :=
  if s.mFailed then (false, s)
  else
    let s1 := { s with mSeq := msg.hdr.nlmsg_seq }
    let rawLen := msg.len
    let bytesSent := k.sendto s1.nSendto
    let s2 := { s1 with nSendto := s1.nSendto + 1 }
    if bytesSent < 0 then (false, s2.logLine LogEntry.cantSend)
    else if bytesSent.toNat ≠ rawLen then (false, s2.logLine LogEntry.cantSendTruncated)
    else (true, s2)

/-- The method `Socket::receiveFrom(maxSize)`. -/
def Socket.receiveFrom (k : Kernel) (maxSize : Nat) (s : Socket) :
    (Option Buffer × sockaddr_nl) × Socket :=
  if s.mFailed then ((none, sockaddr_nl.zero), s)
  else if maxSize = 0 then ((none, sockaddr_nl.zero), s.logLine LogEntry.maxSizeZero)
  else
    let buf := if s.mReceiveBuffer.length < maxSize then resize s.mReceiveBuffer maxSize
               else s.mReceiveBuffer
    let ans := k.recvfrom s.nRecvfrom
    let buf1 := storeAt buf (ans.data.take maxSize)
    let s1 := { s with mReceiveBuffer := buf1, nRecvfrom := s.nRecvfrom + 1 }
    if ans.bytesReceived ≤ 0 then
      ((none, sockaddr_nl.zero), s1.logLine LogEntry.recvFailed)
    else if ans.bytesReceived.toNat > maxSize then
      ((none, sockaddr_nl.zero), s1.logLine (LogEntry.recvTooLarge ans.bytesReceived maxSize))
    else
      ((some ⟨buf1.take ans.bytesReceived.toNat⟩, ans.sa), s1)

/-- The method `Socket::receive(maxSize)`, the first component of `receiveFrom`. -/
def Socket.receive (k : Kernel) (maxSize : Nat) (s : Socket) : Option Buffer × Socket :=
  ((s.receiveFrom k maxSize).1.1, (s.receiveFrom k maxSize).2)

/-- The range-for of the type-filtered receive over the records of one
datagram: a record whose type is not accepted is logged and skipped, the first
accepted one is returned. -/
def scanRecords (msgtypes : List Nat) : List Buffer → Socket → Option Buffer × Socket
  | [], s => (none, s)
  | rawMsg :: rest, s =>
    if msgtypes.count rawMsg.hdr.nlmsg_type = 0 then
      scanRecords msgtypes rest (s.logLine (LogEntry.ignoredType rawMsg.hdr.nlmsg_type))
    else (some rawMsg, s)

/-- The method `Socket::receive(msgtypes, maxSize)`: the `while (!mFailed)` loop, run for
at most `fuel` iterations. -/
def Socket.receive_msgtypes (k : Kernel) (msgtypes : List Nat) (maxSize : Nat) :
    Nat → Socket → Option (Option Buffer × Socket)
  | 0, _ => none
  | fuel + 1, s =>
    if s.mFailed then some (none, s)
    else
      match s.receive k maxSize with
      | (none, s1) => some (none, s1)
      | (some msgBuf, s1) =>
        match scanRecords msgtypes msgBuf.records s1 with
        | (some rawMsg, s2) => some (some rawMsg, s2)
        | (none, s2) => Socket.receive_msgtypes k msgtypes maxSize fuel s2

/-- Modelled from the spec: the member template `receive<nlmsgerr>(msgtypes, maxSize)` of
the missing `Socket.h`: one message of an accepted type is received through the
type-filtered receive and viewed as an error/ack record; nothing is returned
when no message arrives or the record does not parse. -/
def Socket.receive_nlmsgerr (k : Kernel) (msgtypes : List Nat) (maxSize : Nat)
    (fuel : Nat) (s : Socket) : Option (Option Message_nlmsgerr × Socket) :=
  match s.receive_msgtypes k msgtypes maxSize fuel with
  | none => none
  | some (none, s1) => some (none, s1)
  | some (some msg, s1) => some (Message_nlmsgerr.parse msg, s1)

/-- Negation of a C `int` (32-bit two's complement): the result wraps, so that the
least value `-2147483648` is its own negation. -/
def int32Neg (v : Int) : Int := (-v + 2147483648) % 4294967296 - 2147483648

/-- The method `Socket::receiveAck(seq)`.  The receive size is the default argument
`defaultReceiveSize` declared in the missing `Socket.h`, taken as a parameter.
The returned value is the `bool` alone. -/
def Socket.receiveAck (k : Kernel) (defaultReceiveSize : Nat) (seq : Nat)
    (fuel : Nat) (s : Socket) : Option (Bool × Socket) :=
  match s.receive_nlmsgerr k [NLMSG_ERROR] defaultReceiveSize fuel with
  | none => none
  | some (none, _s1) => some (false, _s1)
  | some (some nlerr, s1) =>
    if nlerr.data.msg.nlmsg_seq ≠ seq then
      some (false, s1.logLine (LogEntry.ackDifferentSeq nlerr.data.msg.nlmsg_seq seq))
    else if nlerr.data.error = 0 then some (true, s1)
    else some (false, s1.logLine (LogEntry.ackError (int32Neg nlerr.data.error)))

/-- The method `Socket::getPid()`. -/
def Socket.getPid (k : Kernel) (s : Socket) : Option Nat × Socket :=
  if s.mFailed then (none, s)
  else
    let ans := k.getsockname s.nGetsockname
    let s1 := { s with nGetsockname := s.nGetsockname + 1 }
    if ans.1 < 0 then (none, s1.logLine LogEntry.getPidFailed)
    else (some ans.2, s1)

/-- A sequence of `receive(maxSize)` calls, one per listed size, in order. -/
def Socket.receiveSeq (k : Kernel) : List Nat → Socket → Socket
  | [], s => s
  | maxSize :: rest, s => Socket.receiveSeq k rest (s.receive k maxSize).2

/-- A datagram that the kernel delivers whole into a buffer of `maxSize` bytes: the
returned byte count is the number of bytes stored, positive and at most `maxSize`. -/
def RecvAnswer.delivered (a : RecvAnswer) (maxSize : Nat) : Prop :=
  a.bytesReceived = (a.data.length : Int) ∧ 0 < a.data.length ∧ a.data.length ≤ maxSize

/-! ## Scripted kernel answers used in the examples -/

/-- Little-endian encoding of a 16-bit value. -/
def u16le (n : Nat) : List Nat := [n % 256, n / 256 % 256]

/-- Little-endian encoding of a 32-bit value. -/
def u32le (n : Nat) : List Nat := u16le (n % 65536) ++ u16le (n / 65536 % 65536)

/-- Little-endian two's complement encoding of a signed 32-bit value. -/
def i32le (v : Int) : List Nat := u32le (v % 2 ^ 32).toNat

/-- Bytes of a record header. -/
def hdrBytes (len ty flags seq pid : Nat) : List Nat :=
  u32le len ++ u16le ty ++ u16le flags ++ u32le seq ++ u32le pid

/-- Bytes of an error/ack record answering the request with sequence `seq`. -/
def ackBytes (seq : Nat) (status : Int) : List Nat :=
  hdrBytes 36 NLMSG_ERROR 0 7 0 ++ i32le status ++ hdrBytes 16 18 5 seq 0

/-- Bytes of a record of type `ty` with a two-byte payload and padding. -/
def plainBytes (ty : Nat) : List Nat := hdrBytes 18 ty 0 0 0 ++ [1, 2, 0, 0]

/-- A kernel answer that delivers the bytes `bs` whole. -/
def datagram (bs : List Nat) : RecvAnswer := ⟨bs.length, bs, ⟨16, 0, 0⟩⟩

/-- A kernel whose `recvfrom` answers are the listed ones, followed by read errors;
`sendto` answers `sent` and `getsockname` succeeds with port id 77. -/
def script (sent : Int) (l : List RecvAnswer) : Kernel :=
  { sendto := fun _ => sent
    recvfrom := fun n => l.getD n ⟨-1, [], sockaddr_nl.zero⟩
    getsockname := fun _ => (0, 77) }

/-- A socket whose construction succeeded (descriptor 3). -/
def okSocket : Socket := Socket.create 3 0 0 0 0

/-- A socket whose construction failed at `bind`. -/
def failedSocket : Socket := Socket.create 3 (-1) 0 0 0

/-- The value `receiveAck(42)` returns against one scripted reply with sequence 42 and the
given status. -/
def ackReturn (status : Int) : Option Bool :=
  (okSocket.receiveAck (script 0 [datagram (ackBytes 42 status)]) 8192 42 1).map Prod.fst

/-- The log after `receiveAck(42)` against one scripted reply with sequence 42 and the
given status. -/
def ackLog (status : Int) : Option (List LogEntry) :=
  (okSocket.receiveAck (script 0 [datagram (ackBytes 42 status)]) 8192 42 1).map
    (fun r => r.2.log)

/-- A scripted stream of two datagrams: the first holds one record of type 5, the
second a record of type 5, the acknowledgement of sequence 42, and the
acknowledgement of sequence 43 with status -1. -/
def twoDatagrams : Kernel :=
  script 0 [datagram (plainBytes 5),
    datagram (plainBytes 5 ++ ackBytes 42 0 ++ ackBytes 43 (-1))]

/-! ## Auxiliary facts -/

theorem length_resize (v : List Nat) (n : Nat) : (resize v n).length = n := by
  simp [resize]; omega

theorem length_storeAt (buf data : List Nat) (h : data.length ≤ buf.length) :
    (storeAt buf data).length = buf.length := by
  simp [storeAt]; omega

theorem receiveFrom_mFailed (k : Kernel) (maxSize : Nat) (s : Socket) :
    (s.receiveFrom k maxSize).2.mFailed = s.mFailed := by
  unfold Socket.receiveFrom
  dsimp only
  split_ifs <;> rfl

theorem scanRecords_mFailed (msgtypes : List Nat) (rs : List Buffer) (s : Socket) :
    (scanRecords msgtypes rs s).2.mFailed = s.mFailed := by
  induction rs generalizing s with
  | nil => rfl
  | cons r rest ih =>
    unfold scanRecords
    split_ifs
    · rw [ih]; rfl
    · rfl

theorem scanRecords_nRecvfrom (msgtypes : List Nat) (rs : List Buffer) (s : Socket) :
    (scanRecords msgtypes rs s).2.nRecvfrom = s.nRecvfrom := by
  induction rs generalizing s with
  | nil => rfl
  | cons r rest ih =>
    unfold scanRecords
    split_ifs
    · rw [ih]; rfl
    · rfl

theorem scanRecords_fst (msgtypes : List Nat) (rs : List Buffer) (s : Socket) :
    (scanRecords msgtypes rs s).1
      = rs.find? (fun r => decide (r.hdr.nlmsg_type ∈ msgtypes)) := by
  induction rs generalizing s with
  | nil => rfl
  | cons r rest ih =>
    unfold scanRecords
    by_cases h : r.hdr.nlmsg_type ∈ msgtypes
    · have hc : ¬ List.count r.hdr.nlmsg_type msgtypes = 0 := by
        rw [List.count_eq_zero]; simpa using h
      rw [if_neg hc]
      simp [List.find?, h]
    · have hc : List.count r.hdr.nlmsg_type msgtypes = 0 := by
        rw [List.count_eq_zero]; exact h
      rw [if_pos hc, ih]
      simp [List.find?, h]

theorem receive_msgtypes_failed (k : Kernel) (msgtypes : List Nat) (maxSize fuel : Nat)
    (s : Socket) (hs : s.mFailed = true) :
    s.receive_msgtypes k msgtypes maxSize (fuel + 1) = some (none, s) := by
  simp [Socket.receive_msgtypes, hs]

theorem receive_msgtypes_step (k : Kernel) (msgtypes : List Nat) (maxSize fuel : Nat)
    (s : Socket) (hs : s.mFailed = false) :
    s.receive_msgtypes k msgtypes maxSize (fuel + 1) =
      match (s.receiveFrom k maxSize).1.1 with
      | none => some (none, (s.receiveFrom k maxSize).2)
      | some msgBuf =>
        match (scanRecords msgtypes msgBuf.records (s.receiveFrom k maxSize).2).1 with
        | some rawMsg =>
          some (some rawMsg, (scanRecords msgtypes msgBuf.records (s.receiveFrom k maxSize).2).2)
        | none =>
          Socket.receive_msgtypes k msgtypes maxSize fuel
            (scanRecords msgtypes msgBuf.records (s.receiveFrom k maxSize).2).2 := by
  rw [Socket.receive_msgtypes]
  simp only [hs, Bool.false_eq_true, if_false, Socket.receive]
  cases h1 : (s.receiveFrom k maxSize).1.1 with
  | none => rfl
  | some msgBuf =>
    dsimp only
    cases h2 : (scanRecords msgtypes msgBuf.records (s.receiveFrom k maxSize).2) with
    | mk a b => cases a <;> rfl

theorem receive_msgtypes_mFailed (k : Kernel) (msgtypes : List Nat) (maxSize fuel : Nat)
    (s : Socket) (r : Option Buffer) (s' : Socket)
    (h : s.receive_msgtypes k msgtypes maxSize fuel = some (r, s')) : s'.mFailed = s.mFailed := by
  induction fuel generalizing s with
  | zero => simp [Socket.receive_msgtypes] at h
  | succ n ih =>
    by_cases hs : s.mFailed = true
    · rw [receive_msgtypes_failed k msgtypes maxSize n s hs] at h
      simp only [Option.some.injEq, Prod.mk.injEq] at h
      rw [← h.2]
    · have hs0 : s.mFailed = false := by simpa using hs
      rw [receive_msgtypes_step k msgtypes maxSize n s hs0] at h
      cases h1 : (s.receiveFrom k maxSize).1.1 with
      | none =>
        rw [h1] at h
        simp only [Option.some.injEq, Prod.mk.injEq] at h
        rw [← h.2, receiveFrom_mFailed]
      | some msgBuf =>
        rw [h1] at h
        dsimp only at h
        cases h2 : (scanRecords msgtypes msgBuf.records (s.receiveFrom k maxSize).2).1 with
        | some rawMsg =>
          rw [h2] at h
          simp only [Option.some.injEq, Prod.mk.injEq] at h
          rw [← h.2, scanRecords_mFailed, receiveFrom_mFailed]
        | none =>
          rw [h2] at h
          rw [ih _ h, scanRecords_mFailed, receiveFrom_mFailed]

theorem receive_nlmsgerr_mFailed (k : Kernel) (msgtypes : List Nat) (maxSize fuel : Nat)
    (s : Socket) (r : Option Message_nlmsgerr) (s' : Socket)
    (h : s.receive_nlmsgerr k msgtypes maxSize fuel = some (r, s')) : s'.mFailed = s.mFailed := by
  unfold Socket.receive_nlmsgerr at h
  cases h1 : s.receive_msgtypes k msgtypes maxSize fuel with
  | none => rw [h1] at h; simp at h
  | some p =>
    obtain ⟨m, s1⟩ := p
    rw [h1] at h
    have hf := receive_msgtypes_mFailed _ _ _ _ _ _ _ h1
    cases m with
    | none =>
      simp only [Option.some.injEq, Prod.mk.injEq] at h
      rw [← h.2]; exact hf
    | some msg =>
      simp only [Option.some.injEq, Prod.mk.injEq] at h
      rw [← h.2]; exact hf

theorem receiveAck_mFailed (k : Kernel) (dflt seq fuel : Nat)
    (s : Socket) (r : Bool) (s' : Socket)
    (h : s.receiveAck k dflt seq fuel = some (r, s')) : s'.mFailed = s.mFailed := by
  unfold Socket.receiveAck at h
  cases h1 : s.receive_nlmsgerr k [NLMSG_ERROR] dflt fuel with
  | none => rw [h1] at h; simp at h
  | some p =>
    obtain ⟨m, s1⟩ := p
    rw [h1] at h
    have hf := receive_nlmsgerr_mFailed _ _ _ _ _ _ _ h1
    cases m with
    | none =>
      simp only [Option.some.injEq, Prod.mk.injEq] at h
      rw [← h.2]; exact hf
    | some nlerr =>
      dsimp only at h
      split_ifs at h <;>
        simp only [Option.some.injEq, Prod.mk.injEq] at h <;>
        rw [← h.2] <;> exact hf

theorem receiveFrom_delivered (k : Kernel) (maxSize : Nat) (s : Socket)
    (hs : s.mFailed = false) (hd : (k.recvfrom s.nRecvfrom).delivered maxSize) :
    (s.receiveFrom k maxSize).1.1 = some ⟨(k.recvfrom s.nRecvfrom).data⟩
    ∧ (s.receiveFrom k maxSize).1.2 = (k.recvfrom s.nRecvfrom).sa
    ∧ (s.receiveFrom k maxSize).2.nRecvfrom = s.nRecvfrom + 1 := by
  obtain ⟨h1, h2, h3⟩ := hd
  have hm0 : maxSize ≠ 0 := by omega
  have hpos : ¬ (k.recvfrom s.nRecvfrom).bytesReceived ≤ 0 := by omega
  have hfit : ¬ (k.recvfrom s.nRecvfrom).bytesReceived.toNat > maxSize := by omega
  have htn : (k.recvfrom s.nRecvfrom).bytesReceived.toNat = (k.recvfrom s.nRecvfrom).data.length := by
    omega
  unfold Socket.receiveFrom
  dsimp only
  rw [if_neg (by simp [hs]), if_neg hm0, if_neg hpos, if_neg hfit]
  refine ⟨?_, rfl, rfl⟩
  dsimp only
  rw [htn, List.take_of_length_le h3]
  simp [storeAt]

theorem receive_msgtypes_skips (k : Kernel) (msgtypes : List Nat) (maxSize n : Nat)
    (s : Socket) (rawMsg : Buffer) (hs : s.mFailed = false)
    (hdel : ∀ i, i ≤ n → (k.recvfrom (s.nRecvfrom + i)).delivered maxSize)
    (hno : ∀ i, i < n → ∀ r ∈ (Buffer.mk (k.recvfrom (s.nRecvfrom + i)).data).records,
      r.hdr.nlmsg_type ∉ msgtypes)
    (hfirst : (Buffer.mk (k.recvfrom (s.nRecvfrom + n)).data).records.find?
      (fun r => decide (r.hdr.nlmsg_type ∈ msgtypes)) = some rawMsg)
    (fuel : Nat) (hfuel : n + 1 ≤ fuel) :
    ∃ s', s.receive_msgtypes k msgtypes maxSize fuel = some (some rawMsg, s')
      ∧ s'.nRecvfrom = s.nRecvfrom + (n + 1) ∧ s'.mFailed = false := by
  induction n generalizing s fuel with
  | zero =>
    obtain ⟨f, rfl⟩ : ∃ f, fuel = f + 1 := ⟨fuel - 1, by omega⟩
    have hd := receiveFrom_delivered k maxSize s hs (hdel 0 (le_refl _))
    rw [receive_msgtypes_step k msgtypes maxSize f s hs, hd.1]
    dsimp only
    have hscan := scanRecords_fst msgtypes
      (Buffer.mk (k.recvfrom s.nRecvfrom).data).records (s.receiveFrom k maxSize).2
    rw [show s.nRecvfrom + 0 = s.nRecvfrom from rfl] at hfirst
    rw [hfirst] at hscan
    rw [hscan]
    refine ⟨_, rfl, ?_, ?_⟩
    · rw [scanRecords_nRecvfrom, hd.2.2]
    · rw [scanRecords_mFailed, receiveFrom_mFailed, hs]
  | succ m ih =>
    obtain ⟨f, rfl⟩ : ∃ f, fuel = f + 1 := ⟨fuel - 1, by omega⟩
    have hd := receiveFrom_delivered k maxSize s hs (hdel 0 (Nat.zero_le _))
    rw [receive_msgtypes_step k msgtypes maxSize f s hs, hd.1]
    dsimp only
    have hscan := scanRecords_fst msgtypes
      (Buffer.mk (k.recvfrom s.nRecvfrom).data).records (s.receiveFrom k maxSize).2
    have hnone : (Buffer.mk (k.recvfrom s.nRecvfrom).data).records.find?
        (fun r => decide (r.hdr.nlmsg_type ∈ msgtypes)) = none := by
      rw [List.find?_eq_none]
      intro r hr
      have := hno 0 (Nat.succ_pos m) r hr
      simpa using this
    rw [hnone] at hscan
    rw [hscan]
    dsimp only
    have hn2 : (scanRecords msgtypes (Buffer.mk (k.recvfrom s.nRecvfrom).data).records
        (s.receiveFrom k maxSize).2).2.nRecvfrom = s.nRecvfrom + 1 := by
      rw [scanRecords_nRecvfrom, hd.2.2]
    have hf2 : (scanRecords msgtypes (Buffer.mk (k.recvfrom s.nRecvfrom).data).records
        (s.receiveFrom k maxSize).2).2.mFailed = false := by
      rw [scanRecords_mFailed, receiveFrom_mFailed, hs]
    obtain ⟨s', h1, h2, h3⟩ := ih _ hf2
      (by intro i hi; rw [hn2, Nat.add_assoc, Nat.add_comm 1 i]; exact hdel (i + 1) (by omega))
      (by intro i hi; rw [hn2, Nat.add_assoc, Nat.add_comm 1 i]; exact hno (i + 1) (by omega))
      (by rw [hn2, Nat.add_assoc, Nat.add_comm 1 m]; exact hfirst)
      f (by omega)
    exact ⟨s', h1, by rw [h2, hn2]; omega, h3⟩

theorem length_stored (k : Kernel) (maxSize : Nat) (s : Socket) :
    (storeAt (if s.mReceiveBuffer.length < maxSize then resize s.mReceiveBuffer maxSize
      else s.mReceiveBuffer) ((k.recvfrom s.nRecvfrom).data.take maxSize)).length
      = max s.mReceiveBuffer.length maxSize := by
  rw [length_storeAt]
  · split_ifs with h
    · rw [length_resize]; omega
    · omega
  · split_ifs with h
    · rw [length_resize]; simp
    · simp; omega

theorem receiveFrom_some (k : Kernel) (maxSize : Nat) (s : Socket) (m : Buffer)
    (h : (s.receiveFrom k maxSize).1.1 = some m) :
    (m.len : Int) = (k.recvfrom s.nRecvfrom).bytesReceived ∧ 0 < m.len ∧ m.len ≤ maxSize := by
  have hl := length_stored k maxSize s
  by_cases hs : s.mFailed = true
  · simp [Socket.receiveFrom, hs] at h
  by_cases hm : maxSize = 0
  · simp [Socket.receiveFrom, hs, hm] at h
  unfold Socket.receiveFrom at h
  dsimp only at h
  rw [if_neg hs, if_neg hm] at h
  by_cases h1 : (k.recvfrom s.nRecvfrom).bytesReceived ≤ 0
  · rw [if_pos h1] at h; simp at h
  rw [if_neg h1] at h
  by_cases h2 : (k.recvfrom s.nRecvfrom).bytesReceived.toNat > maxSize
  · rw [if_pos h2] at h; simp at h
  rw [if_neg h2] at h
  simp only [Option.some.injEq] at h
  subst h
  simp only [Buffer.len, List.length_take, hl]
  omega

theorem receiveFrom_none_of_answer (k : Kernel) (maxSize : Nat) (s : Socket)
    (h : (k.recvfrom s.nRecvfrom).bytesReceived ≤ 0
      ∨ (maxSize : Int) < (k.recvfrom s.nRecvfrom).bytesReceived) :
    (s.receiveFrom k maxSize).1.1 = none := by
  cases hr : (s.receiveFrom k maxSize).1.1 with
  | none => rfl
  | some m =>
    have := receiveFrom_some k maxSize s m hr
    omega

theorem receiveFrom_length (k : Kernel) (maxSize : Nat) (s : Socket)
    (hs : s.mFailed = false) (hm : 0 < maxSize) :
    (s.receiveFrom k maxSize).2.mReceiveBuffer.length = max s.mReceiveBuffer.length maxSize := by
  have hlen := length_stored k maxSize s
  have hm0 : maxSize ≠ 0 := by omega
  unfold Socket.receiveFrom
  dsimp only
  rw [if_neg (by simp [hs]), if_neg hm0]
  by_cases h1 : (k.recvfrom s.nRecvfrom).bytesReceived ≤ 0
  · rw [if_pos h1]; exact hlen
  · rw [if_neg h1]
    by_cases h2 : (k.recvfrom s.nRecvfrom).bytesReceived.toNat > maxSize
    · rw [if_pos h2]; exact hlen
    · rw [if_neg h2]; exact hlen

theorem receiveFrom_length_le (k : Kernel) (maxSize : Nat) (s : Socket) :
    s.mReceiveBuffer.length ≤ (s.receiveFrom k maxSize).2.mReceiveBuffer.length := by
  by_cases hs : s.mFailed = true
  · simp [Socket.receiveFrom, hs]
  · by_cases hm : maxSize = 0
    · simp [Socket.receiveFrom, hs, hm, Socket.logLine]
    · rw [receiveFrom_length k maxSize s (by simpa using hs) (by omega)]
      omega

theorem receiveAck_of_typed (k : Kernel) (dflt seq fuel : Nat) (s : Socket)
    (nlerr : Message_nlmsgerr) (s1 : Socket)
    (h : s.receive_nlmsgerr k [NLMSG_ERROR] dflt fuel = some (some nlerr, s1)) :
    s.receiveAck k dflt seq fuel =
      if nlerr.data.msg.nlmsg_seq ≠ seq then
        some (false, s1.logLine (LogEntry.ackDifferentSeq nlerr.data.msg.nlmsg_seq seq))
      else if nlerr.data.error = 0 then some (true, s1)
      else some (false, s1.logLine (LogEntry.ackError (int32Neg nlerr.data.error))) := by
  unfold Socket.receiveAck
  rw [h]

theorem receiveAck_of_typed_none (k : Kernel) (dflt seq fuel : Nat) (s : Socket) (s1 : Socket)
    (h : s.receive_nlmsgerr k [NLMSG_ERROR] dflt fuel = some (none, s1)) :
    s.receiveAck k dflt seq fuel = some (false, s1) := by
  unfold Socket.receiveAck
  rw [h]

theorem int32Neg_eq_neg (v : Int) (hlo : -2147483648 < v) (hhi : v < 2147483648) :
    int32Neg v = -v := by
  unfold int32Neg
  omega

theorem receive_msgtypes_skips_fail (k : Kernel) (msgtypes : List Nat) (maxSize n : Nat)
    (s : Socket) (hs : s.mFailed = false)
    (hdel : ∀ i, i < n → (k.recvfrom (s.nRecvfrom + i)).delivered maxSize)
    (hno : ∀ i, i < n → ∀ r ∈ (Buffer.mk (k.recvfrom (s.nRecvfrom + i)).data).records,
      r.hdr.nlmsg_type ∉ msgtypes)
    (hfail : (k.recvfrom (s.nRecvfrom + n)).bytesReceived ≤ 0
      ∨ (maxSize : Int) < (k.recvfrom (s.nRecvfrom + n)).bytesReceived)
    (fuel : Nat) (hfuel : n + 1 ≤ fuel) :
    ∃ s', s.receive_msgtypes k msgtypes maxSize fuel = some (none, s')
      ∧ s'.mFailed = false := by
  induction n generalizing s fuel with
  | zero =>
    obtain ⟨f, rfl⟩ : ∃ f, fuel = f + 1 := ⟨fuel - 1, by omega⟩
    have hr := receiveFrom_none_of_answer k maxSize s hfail
    rw [receive_msgtypes_step k msgtypes maxSize f s hs, hr]
    exact ⟨_, rfl, by rw [receiveFrom_mFailed, hs]⟩
  | succ m ih =>
    obtain ⟨f, rfl⟩ : ∃ f, fuel = f + 1 := ⟨fuel - 1, by omega⟩
    have hd := receiveFrom_delivered k maxSize s hs (hdel 0 (Nat.succ_pos m))
    rw [receive_msgtypes_step k msgtypes maxSize f s hs, hd.1]
    dsimp only
    have hscan := scanRecords_fst msgtypes
      (Buffer.mk (k.recvfrom s.nRecvfrom).data).records (s.receiveFrom k maxSize).2
    have hnone : (Buffer.mk (k.recvfrom s.nRecvfrom).data).records.find?
        (fun r => decide (r.hdr.nlmsg_type ∈ msgtypes)) = none := by
      rw [List.find?_eq_none]
      intro r hr
      have := hno 0 (Nat.succ_pos m) r hr
      simpa using this
    rw [hnone] at hscan
    rw [hscan]
    dsimp only
    have hn2 : (scanRecords msgtypes (Buffer.mk (k.recvfrom s.nRecvfrom).data).records
        (s.receiveFrom k maxSize).2).2.nRecvfrom = s.nRecvfrom + 1 := by
      rw [scanRecords_nRecvfrom, hd.2.2]
    have hf2 : (scanRecords msgtypes (Buffer.mk (k.recvfrom s.nRecvfrom).data).records
        (s.receiveFrom k maxSize).2).2.mFailed = false := by
      rw [scanRecords_mFailed, receiveFrom_mFailed, hs]
    exact ih _ hf2
      (by intro i hi; rw [hn2, Nat.add_assoc, Nat.add_comm 1 i]; exact hdel (i + 1) (by omega))
      (by intro i hi; rw [hn2, Nat.add_assoc, Nat.add_comm 1 i]; exact hno (i + 1) (by omega))
      (by rw [hn2, Nat.add_assoc, Nat.add_comm 1 m]; exact hfail)
      f (by omega)

/-! ## The claims -/

/-- C2: on a handle that is not failed, `send` returns true exactly when the
kernel's answer to the one `sendto` call is non-negative and equal to the raw
length of the message; a negative answer and a short write both give false; the
call makes exactly one `sendto` (one system call in all), so nothing is retried. -/
theorem send_true_iff_full_write (k : Kernel) (msg : Buffer) (sa : sockaddr_nl) (s : Socket)
    (hs : s.mFailed = false) :
    ((s.send k msg sa).1 = true ↔
        (0 ≤ k.sendto s.nSendto ∧ k.sendto s.nSendto = (msg.len : Int)))
    ∧ (k.sendto s.nSendto < 0 → (s.send k msg sa).1 = false)
    ∧ (k.sendto s.nSendto < (msg.len : Int) → (s.send k msg sa).1 = false)
    ∧ (s.send k msg sa).2.nSendto = s.nSendto + 1
    ∧ (s.send k msg sa).2.syscalls = s.syscalls + 1 := by
  unfold Socket.send
  dsimp only
  rw [if_neg (by simp [hs])]
  by_cases h1 : k.sendto s.nSendto < 0
  · rw [if_pos h1]
    refine ⟨?_, ?_, ?_, rfl, ?_⟩
    · constructor
      · intro h; simp at h
      · intro h; omega
    · intro _; rfl
    · intro _; rfl
    · simp only [Socket.syscalls, Socket.logLine]; omega
  · rw [if_neg h1]
    by_cases h2 : (k.sendto s.nSendto).toNat ≠ msg.len
    · rw [if_pos h2]
      refine ⟨?_, ?_, ?_, rfl, ?_⟩
      · constructor
        · intro h; simp at h
        · intro h; exfalso; apply h2; omega
      · intro _; rfl
      · intro _; rfl
      · simp only [Socket.syscalls, Socket.logLine]; omega
    · rw [if_neg h2]
      refine ⟨?_, ?_, ?_, rfl, ?_⟩
      · constructor
        · intro _; omega
        · intro _; rfl
      · intro h; omega
      · intro h; omega
      · simp only [Socket.syscalls]; omega

/-- Witness for C2: a full write of a 16-byte message, and a short write of it. -/
theorem send_true_iff_full_write_witness :
    okSocket.mFailed = false
    ∧ (okSocket.send (script 16 []) ⟨hdrBytes 16 18 5 42 0⟩ sockaddr_nl.zero).1 = true
    ∧ (okSocket.send (script 12 []) ⟨hdrBytes 16 18 5 42 0⟩ sockaddr_nl.zero).1 = false
    ∧ (okSocket.send (script 12 []) ⟨hdrBytes 16 18 5 42 0⟩ sockaddr_nl.zero).2.syscalls
        = okSocket.syscalls + 1 :=
  ⟨rfl,
   (send_true_iff_full_write (script 16 []) ⟨hdrBytes 16 18 5 42 0⟩ sockaddr_nl.zero okSocket
      rfl).1.2 (by decide),
   (send_true_iff_full_write (script 12 []) ⟨hdrBytes 16 18 5 42 0⟩ sockaddr_nl.zero okSocket
      rfl).2.2.1 (by decide),
   (send_true_iff_full_write (script 12 []) ⟨hdrBytes 16 18 5 42 0⟩ sockaddr_nl.zero okSocket
      rfl).2.2.2.2⟩

/-- C3: on a handle in the failure state every operation reports failure and
leaves the state as it was; the state holds the counters of `sendto`, `recvfrom`
and `getsockname` calls, so no system call is made (the loops are given at least
one unit of fuel, enough to test the loop condition once). -/
theorem failed_handle_makes_no_syscall (k : Kernel) (s : Socket) (hs : s.mFailed = true) :
    (∀ msg sa, s.send k msg sa = (false, s))
    ∧ (∀ maxSize, s.receiveFrom k maxSize = ((none, sockaddr_nl.zero), s))
    ∧ (∀ maxSize, s.receive k maxSize = (none, s))
    ∧ (∀ msgtypes maxSize fuel, s.receive_msgtypes k msgtypes maxSize (fuel + 1) = some (none, s))
    ∧ (∀ msgtypes maxSize fuel,
        s.receive_nlmsgerr k msgtypes maxSize (fuel + 1) = some (none, s))
    ∧ (∀ dflt seq fuel, s.receiveAck k dflt seq (fuel + 1) = some (false, s))
    ∧ s.getPid k = (none, s)
    ∧ (∀ msg sa, (s.send k msg sa).2.syscalls = s.syscalls)
    ∧ (∀ maxSize, (s.receiveFrom k maxSize).2.syscalls = s.syscalls)
    ∧ (∀ dflt seq fuel s', s.receiveAck k dflt seq (fuel + 1) = some (false, s') →
        s'.syscalls = s.syscalls)
    ∧ (s.getPid k).2.syscalls = s.syscalls := by
  have hrf : ∀ maxSize, s.receiveFrom k maxSize = ((none, sockaddr_nl.zero), s) := by
    intro maxSize; simp [Socket.receiveFrom, hs]
  have hack : ∀ dflt seq fuel, s.receiveAck k dflt seq (fuel + 1) = some (false, s) := by
    intro dflt seq fuel
    simp [Socket.receiveAck, Socket.receive_nlmsgerr, receive_msgtypes_failed, hs]
  refine ⟨?_, hrf, ?_, ?_, ?_, hack, ?_, ?_, ?_, ?_, ?_⟩
  · intro msg sa; simp [Socket.send, hs]
  · intro maxSize; simp [Socket.receive, hrf]
  · intro msgtypes maxSize fuel; exact receive_msgtypes_failed k msgtypes maxSize fuel s hs
  · intro msgtypes maxSize fuel
    simp [Socket.receive_nlmsgerr, receive_msgtypes_failed, hs]
  · simp [Socket.getPid, hs]
  · intro msg sa; simp [Socket.send, hs]
  · intro maxSize; rw [hrf]
  · intro dflt seq fuel s' h
    rw [hack] at h
    simp only [Option.some.injEq, Prod.mk.injEq, true_and] at h
    rw [h]
  · simp [Socket.getPid, hs]

/-- Witness for C3: the handle whose `bind` failed, against a kernel that would
deliver an acknowledgement. -/
theorem failed_handle_makes_no_syscall_witness :
    failedSocket.mFailed = true
    ∧ failedSocket.send (script 16 []) ⟨hdrBytes 16 18 5 42 0⟩ sockaddr_nl.zero
        = (false, failedSocket)
    ∧ failedSocket.receiveAck (script 16 [datagram (ackBytes 42 0)]) 64 42 1
        = some (false, failedSocket)
    ∧ failedSocket.syscalls = 0 :=
  ⟨rfl,
   (failed_handle_makes_no_syscall (script 16 []) failedSocket rfl).1 _ _,
   (failed_handle_makes_no_syscall (script 16 [datagram (ackBytes 42 0)]) failedSocket
      rfl).2.2.2.2.2.1 64 42 0,
   rfl⟩

/-- C8: in every handle state `receive(0)` and `receiveFrom(0)` return no message,
`receiveFrom(0)` returns the zeroed peer address, no `recvfrom` (and no other system
call) is made, and the scratch receive buffer is left as it was. -/
theorem receive_zero_rejected (k : Kernel) (s : Socket) :
    (s.receive k 0).1 = none
    ∧ (s.receiveFrom k 0).1 = (none, sockaddr_nl.zero)
    ∧ (s.receiveFrom k 0).2.nRecvfrom = s.nRecvfrom
    ∧ (s.receiveFrom k 0).2.syscalls = s.syscalls
    ∧ (s.receiveFrom k 0).2.mReceiveBuffer = s.mReceiveBuffer
    ∧ (s.receive k 0).2.nRecvfrom = s.nRecvfrom
    ∧ (s.receive k 0).2.syscalls = s.syscalls
    ∧ (s.receive k 0).2.mReceiveBuffer = s.mReceiveBuffer := by
  by_cases hs : s.mFailed = true
  · simp [Socket.receive, Socket.receiveFrom, hs]
  · simp [Socket.receive, Socket.receiveFrom, hs, Socket.logLine, Socket.syscalls]

/-- C9: the size of the scratch receive buffer never decreases over a `receive`
call nor over any sequence of `receive` calls, whatever the sizes and the kernel
answers; after `receive(maxSize)` with `maxSize > 0` on a handle that is not failed it is
the maximum of the previous size and `maxSize`, whether or not a message came back;
so after `receive(100)`, `receive(50)`, `receive(200)` on such a handle it is at least 200. -/
theorem receive_buffer_never_shrinks (k : Kernel) (s : Socket) :
    (∀ maxSize, s.mReceiveBuffer.length ≤ (s.receive k maxSize).2.mReceiveBuffer.length)
    ∧ (∀ sizes, s.mReceiveBuffer.length ≤ (s.receiveSeq k sizes).mReceiveBuffer.length)
    ∧ (∀ maxSize, s.mFailed = false → 0 < maxSize →
        (s.receive k maxSize).2.mReceiveBuffer.length = max s.mReceiveBuffer.length maxSize)
    ∧ (s.mFailed = false → 200 ≤ (s.receiveSeq k [100, 50, 200]).mReceiveBuffer.length) := by
  refine ⟨fun maxSize => receiveFrom_length_le k maxSize s, ?_, ?_, ?_⟩
  · intro sizes
    induction sizes generalizing s with
    | nil => exact le_refl _
    | cons m rest ih =>
      exact le_trans (receiveFrom_length_le k m s) (ih (s.receive k m).2)
  · intro maxSize hs hm
    exact receiveFrom_length k maxSize s hs hm
  · intro hs
    have h1 : (s.receive k 100).2.mFailed = false := by
      rw [← hs]; exact receiveFrom_mFailed k 100 s
    have h2 : ((s.receive k 100).2.receive k 50).2.mFailed = false := by
      rw [← h1]; exact receiveFrom_mFailed k 50 _
    have h3 := receiveFrom_length k 200 ((s.receive k 100).2.receive k 50).2 h2 (by omega)
    show 200 ≤ ((((s.receive k 100).2.receive k 50).2.receive k 200).2).mReceiveBuffer.length
    have h4 : ((((s.receive k 100).2.receive k 50).2.receive k 200).2).mReceiveBuffer.length
        = (((s.receive k 100).2.receive k 50).2.receiveFrom k 200).2.mReceiveBuffer.length := rfl
    rw [h4, h3]
    omega

/-- Witness for C9: three receives on a fresh handle of which only the second
delivers a message; the buffer ends with 200 bytes. -/
theorem receive_buffer_never_shrinks_witness :
    okSocket.mFailed = false
    ∧ 200 ≤ (okSocket.receiveSeq (script 0 [⟨-1, [], sockaddr_nl.zero⟩, datagram (plainBytes 5)])
        [100, 50, 200]).mReceiveBuffer.length
    ∧ (okSocket.receive (script 0 []) 100).2.mReceiveBuffer.length
        = max okSocket.mReceiveBuffer.length 100 :=
  ⟨rfl,
   (receive_buffer_never_shrinks
      (script 0 [⟨-1, [], sockaddr_nl.zero⟩, datagram (plainBytes 5)]) okSocket).2.2.2 rfl,
   (receive_buffer_never_shrinks (script 0 []) okSocket).2.2.1 100 rfl (by decide)⟩

/-- C10: the failure flag is set by the constructor exactly when `socket` or `bind`
failed, and every later operation leaves it as it found it: `send`, `receiveFrom`,
`receive`, the type-filtered receive, `receiveAck` and `getPid`, for all kernel answers
(for the loops: whenever they return). -/
theorem mFailed_fixed_by_construction (k : Kernel) (s : Socket) :
    (∀ socketRet bindRet protocol pid groups,
        (Socket.create socketRet bindRet protocol pid groups).mFailed = true
          ↔ (socketRet < 0 ∨ bindRet < 0))
    ∧ (∀ msg sa, (s.send k msg sa).2.mFailed = s.mFailed)
    ∧ (∀ maxSize, (s.receiveFrom k maxSize).2.mFailed = s.mFailed)
    ∧ (∀ maxSize, (s.receive k maxSize).2.mFailed = s.mFailed)
    ∧ (∀ msgtypes maxSize fuel r s',
        s.receive_msgtypes k msgtypes maxSize fuel = some (r, s') → s'.mFailed = s.mFailed)
    ∧ (∀ dflt seq fuel r s',
        s.receiveAck k dflt seq fuel = some (r, s') → s'.mFailed = s.mFailed)
    ∧ (s.getPid k).2.mFailed = s.mFailed := by
  refine ⟨?_, ?_, fun m => receiveFrom_mFailed k m s, fun m => receiveFrom_mFailed k m s,
    fun msgtypes maxSize fuel r s' h => receive_msgtypes_mFailed k msgtypes maxSize fuel s r s' h,
    fun dflt seq fuel r s' h => receiveAck_mFailed k dflt seq fuel s r s' h, ?_⟩
  · intro socketRet bindRet protocol pid groups
    unfold Socket.create
    dsimp only
    by_cases h1 : socketRet < 0
    · simp [h1]
    · by_cases h2 : bindRet < 0
      · simp [h1, h2]
      · simp [h1, h2]
  · intro msg sa
    unfold Socket.send
    dsimp only
    split_ifs <;> rfl
  · unfold Socket.getPid
    dsimp only
    split_ifs <;> rfl

/-- C1: whenever the typed receive hands an error/ack record back, `receiveAck(seq)`
returns, and returns true exactly when the embedded sequence number equals `seq` and
the status is zero; with a different sequence number it returns false whatever
the status; when the typed receive hands nothing back it returns false.  The
result is produced: on a stream whose first datagram with an error/ack record is
the one after `n` others, `n + 1` units of fuel are enough for it to return that
verdict (false when that record does not parse); when the read after `n` datagrams
without such a record fails or is truncated, `receiveAck` returns false within `n + 1`
units of fuel; on a failed handle it returns false at once. -/
theorem receiveAck_true_iff_seq_and_status (k : Kernel) (dflt seq : Nat) (s : Socket) :
    (∀ fuel nlerr s1,
        s.receive_nlmsgerr k [NLMSG_ERROR] dflt fuel = some (some nlerr, s1) →
        ∃ b s2, s.receiveAck k dflt seq fuel = some (b, s2)
          ∧ (b = true ↔ (nlerr.data.msg.nlmsg_seq = seq ∧ nlerr.data.error = 0))
          ∧ (nlerr.data.msg.nlmsg_seq ≠ seq → b = false))
    ∧ (∀ fuel s1, s.receive_nlmsgerr k [NLMSG_ERROR] dflt fuel = some (none, s1) →
        s.receiveAck k dflt seq fuel = some (false, s1))
    ∧ (∀ n rawMsg nlerr fuel, s.mFailed = false →
        (∀ i, i ≤ n → (k.recvfrom (s.nRecvfrom + i)).delivered dflt) →
        (∀ i, i < n → ∀ r ∈ (Buffer.mk (k.recvfrom (s.nRecvfrom + i)).data).records,
          r.hdr.nlmsg_type ∉ [NLMSG_ERROR]) →
        (Buffer.mk (k.recvfrom (s.nRecvfrom + n)).data).records.find?
          (fun r => decide (r.hdr.nlmsg_type ∈ [NLMSG_ERROR])) = some rawMsg →
        Message_nlmsgerr.parse rawMsg = some nlerr → n + 1 ≤ fuel →
        ∃ b s2, s.receiveAck k dflt seq fuel = some (b, s2)
          ∧ (b = true ↔ (nlerr.data.msg.nlmsg_seq = seq ∧ nlerr.data.error = 0))
          ∧ (nlerr.data.msg.nlmsg_seq ≠ seq → b = false))
    ∧ (∀ n fuel, s.mFailed = false →
        (∀ i, i < n → (k.recvfrom (s.nRecvfrom + i)).delivered dflt) →
        (∀ i, i < n → ∀ r ∈ (Buffer.mk (k.recvfrom (s.nRecvfrom + i)).data).records,
          r.hdr.nlmsg_type ∉ [NLMSG_ERROR]) →
        ((k.recvfrom (s.nRecvfrom + n)).bytesReceived ≤ 0
          ∨ (dflt : Int) < (k.recvfrom (s.nRecvfrom + n)).bytesReceived) →
        n + 1 ≤ fuel →
        ∃ s2, s.receiveAck k dflt seq fuel = some (false, s2))
    ∧ (∀ n rawMsg fuel, s.mFailed = false →
        (∀ i, i ≤ n → (k.recvfrom (s.nRecvfrom + i)).delivered dflt) →
        (∀ i, i < n → ∀ r ∈ (Buffer.mk (k.recvfrom (s.nRecvfrom + i)).data).records,
          r.hdr.nlmsg_type ∉ [NLMSG_ERROR]) →
        (Buffer.mk (k.recvfrom (s.nRecvfrom + n)).data).records.find?
          (fun r => decide (r.hdr.nlmsg_type ∈ [NLMSG_ERROR])) = some rawMsg →
        Message_nlmsgerr.parse rawMsg = none → n + 1 ≤ fuel →
        ∃ s2, s.receiveAck k dflt seq fuel = some (false, s2))
    ∧ (s.mFailed = true → ∀ fuel, s.receiveAck k dflt seq (fuel + 1) = some (false, s)) := by
  have key : ∀ fuel nlerr s1,
      s.receive_nlmsgerr k [NLMSG_ERROR] dflt fuel = some (some nlerr, s1) →
      ∃ b s2, s.receiveAck k dflt seq fuel = some (b, s2)
        ∧ (b = true ↔ (nlerr.data.msg.nlmsg_seq = seq ∧ nlerr.data.error = 0))
        ∧ (nlerr.data.msg.nlmsg_seq ≠ seq → b = false) := by
    intro fuel nlerr s1 h
    rw [receiveAck_of_typed k dflt seq fuel s nlerr s1 h]
    by_cases h1 : nlerr.data.msg.nlmsg_seq ≠ seq
    · rw [if_pos h1]
      exact ⟨false, _, rfl, by simp; intro h2; exact absurd h2 h1, fun _ => rfl⟩
    · rw [if_neg h1]
      have h1' : nlerr.data.msg.nlmsg_seq = seq := by simpa using h1
      by_cases h2 : nlerr.data.error = 0
      · rw [if_pos h2]
        exact ⟨true, _, rfl, by simp [h1', h2], fun h3 => absurd h1' h3⟩
      · rw [if_neg h2]
        exact ⟨false, _, rfl, by simp [h2], fun _ => rfl⟩
  refine ⟨key, ?_, ?_, ?_, ?_, ?_⟩
  · intro fuel s1 h
    exact receiveAck_of_typed_none k dflt seq fuel s s1 h
  · intro n rawMsg nlerr fuel hs hdel hno hfirst hparse hfuel
    obtain ⟨s1, h1, _, _⟩ :=
      receive_msgtypes_skips k [NLMSG_ERROR] dflt n s rawMsg hs hdel hno hfirst fuel hfuel
    have ht : s.receive_nlmsgerr k [NLMSG_ERROR] dflt fuel = some (some nlerr, s1) := by
      unfold Socket.receive_nlmsgerr
      rw [h1]
      dsimp only
      rw [hparse]
    exact key fuel nlerr s1 ht
  · intro n fuel hs hdel hno hfail hfuel
    obtain ⟨s1, h1, _⟩ :=
      receive_msgtypes_skips_fail k [NLMSG_ERROR] dflt n s hs hdel hno hfail fuel hfuel
    have ht : s.receive_nlmsgerr k [NLMSG_ERROR] dflt fuel = some (none, s1) := by
      unfold Socket.receive_nlmsgerr
      rw [h1]
    exact ⟨s1, receiveAck_of_typed_none k dflt seq fuel s s1 ht⟩
  · intro n rawMsg fuel hs hdel hno hfirst hparse hfuel
    obtain ⟨s1, h1, _, _⟩ :=
      receive_msgtypes_skips k [NLMSG_ERROR] dflt n s rawMsg hs hdel hno hfirst fuel hfuel
    have ht : s.receive_nlmsgerr k [NLMSG_ERROR] dflt fuel = some (none, s1) := by
      unfold Socket.receive_nlmsgerr
      rw [h1]
      dsimp only
      rw [hparse]
    exact ⟨s1, receiveAck_of_typed_none k dflt seq fuel s s1 ht⟩
  · intro hs fuel
    simp [Socket.receiveAck, Socket.receive_nlmsgerr, receive_msgtypes_failed, hs]

/-- Witness for C1: against the two-datagram stream `receiveAck(42)` returns true
with two units of fuel and `receiveAck(43)` does not; when the read after one
datagram without an acknowledgement fails, when the first read is truncated,
and when the acknowledgement record is cut short, `receiveAck(42)` returns false. -/
theorem receiveAck_true_iff_seq_and_status_witness :
    okSocket.mFailed = false
    ∧ (∃ b s2, okSocket.receiveAck twoDatagrams 128 42 2 = some (b, s2) ∧ (b = true ↔
        ((readHdr (ackBytes 42 0) 20).nlmsg_seq = 42 ∧ readI32 (ackBytes 42 0) 16 = 0))
        ∧ ((readHdr (ackBytes 42 0) 20).nlmsg_seq ≠ 42 → b = false))
    ∧ (∃ b s2, okSocket.receiveAck twoDatagrams 128 43 2 = some (b, s2) ∧ (b = true ↔
        ((readHdr (ackBytes 42 0) 20).nlmsg_seq = 43 ∧ readI32 (ackBytes 42 0) 16 = 0))
        ∧ ((readHdr (ackBytes 42 0) 20).nlmsg_seq ≠ 43 → b = false))
    ∧ (∃ s2, okSocket.receiveAck (script 0 [datagram (plainBytes 5)]) 128 42 2
        = some (false, s2))
    ∧ (∃ s2, okSocket.receiveAck (script 0 [datagram (ackBytes 42 0)]) 20 42 1
        = some (false, s2))
    ∧ (∃ s2, okSocket.receiveAck (script 0 [datagram (hdrBytes 16 NLMSG_ERROR 0 7 0)]) 128 42 1
        = some (false, s2))
    ∧ failedSocket.receiveAck twoDatagrams 128 42 1 = some (false, failedSocket) :=
  ⟨rfl,
   (receiveAck_true_iff_seq_and_status twoDatagrams 128 42 okSocket).2.2.1 1 ⟨ackBytes 42 0⟩
      ⟨readHdr (ackBytes 42 0) 0, ⟨readI32 (ackBytes 42 0) 16, readHdr (ackBytes 42 0) 20⟩⟩
      2 rfl
      (by intro i hi; interval_cases i <;> (unfold RecvAnswer.delivered; decide))
      (by intro i hi; interval_cases i; decide)
      (by decide) (by decide) (by decide),
   (receiveAck_true_iff_seq_and_status twoDatagrams 128 43 okSocket).2.2.1 1 ⟨ackBytes 42 0⟩
      ⟨readHdr (ackBytes 42 0) 0, ⟨readI32 (ackBytes 42 0) 16, readHdr (ackBytes 42 0) 20⟩⟩
      2 rfl
      (by intro i hi; interval_cases i <;> (unfold RecvAnswer.delivered; decide))
      (by intro i hi; interval_cases i; decide)
      (by decide) (by decide) (by decide),
   (receiveAck_true_iff_seq_and_status (script 0 [datagram (plainBytes 5)]) 128 42
      okSocket).2.2.2.1 1 2 rfl
      (by intro i hi; interval_cases i; unfold RecvAnswer.delivered; decide)
      (by intro i hi; interval_cases i; decide)
      (Or.inl (by decide)) (by decide),
   (receiveAck_true_iff_seq_and_status (script 0 [datagram (ackBytes 42 0)]) 20 42
      okSocket).2.2.2.1 0 1 rfl
      (by intro i hi; omega)
      (by intro i hi; omega)
      (Or.inr (by decide)) (by decide),
   (receiveAck_true_iff_seq_and_status (script 0 [datagram (hdrBytes 16 NLMSG_ERROR 0 7 0)])
      128 42 okSocket).2.2.2.2.1 0 ⟨hdrBytes 16 NLMSG_ERROR 0 7 0⟩ 1 rfl
      (by intro i hi; interval_cases i; unfold RecvAnswer.delivered; decide)
      (by intro i hi; omega)
      (by decide) (by decide) (by decide),
   (receiveAck_true_iff_seq_and_status twoDatagrams 128 42 failedSocket).2.2.2.2.2 rfl 0⟩

/-- C4, as stated, fails: with `maxSize = 16` the kernel delivers a 16-byte datagram
whose header declares a length of 65535; `receive(16)` returns it, and the declared
length of the returned message exceeds `maxSize`. -/
theorem receive_declaredLength_exceeds_maxSize :
    ∃ m, (okSocket.receive (script 0 [datagram (hdrBytes 65535 18 0 0 0)]) 16).1 = some m
      ∧ 16 < m.declaredLength :=
  ⟨⟨hdrBytes 65535 18 0 0 0⟩, by decide, by decide⟩

/-- C4, amended: for every `maxSize` and every kernel answer, a message returned by
`receive(maxSize)` / `receiveFrom(maxSize)` covers exactly as many bytes as the kernel
reported, a positive number not above `maxSize`; a reported count above
`maxSize` or `≤ 0` yields no message.  The length declared by the header inside is not looked
at; when it is within the bytes of the view, it does not exceed `maxSize` either. -/
theorem receive_len_le_maxSize (k : Kernel) (maxSize : Nat) (s : Socket) :
    (∀ m, (s.receive k maxSize).1 = some m →
        (m.len : Int) = (k.recvfrom s.nRecvfrom).bytesReceived ∧ 0 < m.len ∧ m.len ≤ maxSize)
    ∧ (∀ m, (s.receiveFrom k maxSize).1.1 = some m →
        (m.len : Int) = (k.recvfrom s.nRecvfrom).bytesReceived ∧ 0 < m.len ∧ m.len ≤ maxSize)
    ∧ ((maxSize : Int) < (k.recvfrom s.nRecvfrom).bytesReceived →
        (s.receive k maxSize).1 = none ∧ (s.receiveFrom k maxSize).1.1 = none)
    ∧ ((k.recvfrom s.nRecvfrom).bytesReceived ≤ 0 →
        (s.receive k maxSize).1 = none ∧ (s.receiveFrom k maxSize).1.1 = none)
    ∧ (∀ m, (s.receive k maxSize).1 = some m → m.declaredLength ≤ m.len →
        m.declaredLength ≤ maxSize) :=
  ⟨fun m h => receiveFrom_some k maxSize s m h,
   fun m h => receiveFrom_some k maxSize s m h,
   fun h => ⟨receiveFrom_none_of_answer k maxSize s (Or.inr h),
     receiveFrom_none_of_answer k maxSize s (Or.inr h)⟩,
   fun h => ⟨receiveFrom_none_of_answer k maxSize s (Or.inl h),
     receiveFrom_none_of_answer k maxSize s (Or.inl h)⟩,
   fun m h hd => le_trans hd (receiveFrom_some k maxSize s m h).2.2⟩

/-- Witness for the amended C4: the datagram of the counterexample is returned as
a 16-byte view, and a 20-byte datagram is refused by `receive(16)`. -/
theorem receive_len_le_maxSize_witness :
    ((⟨hdrBytes 65535 18 0 0 0⟩ : Buffer).len ≤ 16)
    ∧ (okSocket.receive (script 0 [datagram (plainBytes 5)]) 16).1 = none :=
  ⟨((receive_len_le_maxSize (script 0 [datagram (hdrBytes 65535 18 0 0 0)]) 16 okSocket).1
      ⟨hdrBytes 65535 18 0 0 0⟩ (by decide)).2.2,
   ((receive_len_le_maxSize (script 0 [datagram (plainBytes 5)]) 16 okSocket).2.2.1
      (by decide)).1⟩

/-- C5: on a handle that is not failed, when the next `n + 1` datagrams are
delivered whole, the first `n` of them hold no record of an accepted type and
datagram `n + 1` holds one, the type-filtered receive (given fuel for `n + 1` rounds)
returns the first record of datagram `n + 1`, in record order, whose type is
accepted, and has then made exactly `n + 1` `recvfrom` calls. -/
theorem receive_msgtypes_first_match (k : Kernel) (msgtypes : List Nat) (maxSize n : Nat)
    (s : Socket) (rawMsg : Buffer) (hs : s.mFailed = false)
    (hdel : ∀ i, i ≤ n → (k.recvfrom (s.nRecvfrom + i)).delivered maxSize)
    (hno : ∀ i, i < n → ∀ r ∈ (Buffer.mk (k.recvfrom (s.nRecvfrom + i)).data).records,
      r.hdr.nlmsg_type ∉ msgtypes)
    (hfirst : (Buffer.mk (k.recvfrom (s.nRecvfrom + n)).data).records.find?
      (fun r => decide (r.hdr.nlmsg_type ∈ msgtypes)) = some rawMsg)
    (fuel : Nat) (hfuel : n + 1 ≤ fuel) :
    ∃ s', s.receive_msgtypes k msgtypes maxSize fuel = some (some rawMsg, s')
      ∧ s'.nRecvfrom = s.nRecvfrom + (n + 1) := by
  obtain ⟨s', h1, h2, _⟩ :=
    receive_msgtypes_skips k msgtypes maxSize n s rawMsg hs hdel hno hfirst fuel hfuel
  exact ⟨s', h1, h2⟩

/-- Witness for C5: the second datagram holds a record of type 5 and two
acknowledgements; the acknowledgement of sequence 42, the first record of an
accepted type, is returned after two reads. -/
theorem receive_msgtypes_first_match_witness :
    okSocket.mFailed = false
    ∧ (Buffer.mk (twoDatagrams.recvfrom 1).data).records
        = [⟨(plainBytes 5).take 18⟩, ⟨ackBytes 42 0⟩, ⟨ackBytes 43 (-1)⟩]
    ∧ ∃ s', okSocket.receive_msgtypes twoDatagrams [NLMSG_ERROR] 128 2
        = some (some ⟨ackBytes 42 0⟩, s') ∧ s'.nRecvfrom = okSocket.nRecvfrom + (1 + 1) :=
  ⟨rfl, by decide,
   receive_msgtypes_first_match twoDatagrams [NLMSG_ERROR] 128 1 okSocket ⟨ackBytes 42 0⟩ rfl
      (by intro i hi; interval_cases i <;> (unfold RecvAnswer.delivered; decide))
      (by intro i hi; interval_cases i; decide)
      (by decide) 2 (by decide)⟩

/-- C7, as stated, fails: `receiveAck(42)` hands the same value back for a reply with
status -13 and for one with status -1, so no function of the returned value
yields the codes 13 and 1. -/
theorem receiveAck_returns_no_code :
    ¬ ∃ surfaced : Option Bool → Int,
        surfaced (ackReturn (-13)) = 13 ∧ surfaced (ackReturn (-1)) = 1 := by
  rintro ⟨f, h1, h2⟩
  have e : ackReturn (-13) = ackReturn (-1) := by decide
  rw [e] at h1
  omega

/-- C7, amended: when the embedded sequence number equals the expected one,
`receiveAck` returns true for status zero, and for a non-zero status returns false
(a plain `bool`) after logging a warning built from the status negated as a C
`int` (the negative of the status for every status above the least `int`); for the
scripted reply with sequence 42 and status -13, `receiveAck(42)` returns false and the
log line carries 13, and with status 0 it returns true and logs nothing. -/
theorem receiveAck_status_logged (k : Kernel) (dflt seq fuel : Nat) (s : Socket) :
    (∀ nlerr s1, s.receive_nlmsgerr k [NLMSG_ERROR] dflt fuel = some (some nlerr, s1) →
        nlerr.data.msg.nlmsg_seq = seq →
        (nlerr.data.error ≠ 0 → s.receiveAck k dflt seq fuel
            = some (false, s1.logLine (LogEntry.ackError (int32Neg nlerr.data.error))))
        ∧ (nlerr.data.error = 0 → s.receiveAck k dflt seq fuel = some (true, s1)))
    ∧ (∀ v : Int, -2147483648 < v → v < 2147483648 → int32Neg v = -v)
    ∧ int32Neg (-2147483648) = -2147483648
    ∧ ackReturn (-13) = some false ∧ ackLog (-13) = some [LogEntry.ackError 13]
    ∧ ackReturn 0 = some true ∧ ackLog 0 = some []
    ∧ ackReturn (-2147483648) = some false
    ∧ ackLog (-2147483648) = some [LogEntry.ackError (-2147483648)] := by
  refine ⟨?_, int32Neg_eq_neg, by decide, by decide, by decide, by decide, by decide,
    by decide, by decide⟩
  intro nlerr s1 h hseq
  rw [receiveAck_of_typed k dflt seq fuel s nlerr s1 h]
  constructor
  · intro he
    rw [if_neg (by simpa using hseq), if_neg he]
  · intro he
    rw [if_neg (by simpa using hseq), if_pos he]

/-- Witness for the amended C7: the scripted replies with sequence 42 and status -13
and with the least status, run through the general statement. -/
theorem receiveAck_status_logged_witness :
    (okSocket.receiveAck (script 0 [datagram (ackBytes 42 (-13))]) 64 42 1).map
        (fun r => (r.1, r.2.log)) = some (false, [LogEntry.ackError 13])
    ∧ (okSocket.receiveAck (script 0 [datagram (ackBytes 42 (-2147483648))]) 64 42 1).map
        (fun r => (r.1, r.2.log)) = some (false, [LogEntry.ackError (-2147483648)]) := by
  have h := ((receiveAck_status_logged (script 0 [datagram (ackBytes 42 (-13))]) 64 42 1
    okSocket).1
    ⟨readHdr (ackBytes 42 (-13)) 0,
      ⟨readI32 (ackBytes 42 (-13)) 16, readHdr (ackBytes 42 (-13)) 20⟩⟩
    ((okSocket.receive_nlmsgerr (script 0 [datagram (ackBytes 42 (-13))]) [NLMSG_ERROR] 64
      1).get (by decide)).2
    (by decide) (by decide)).1 (by decide)
  have h2 := ((receiveAck_status_logged (script 0 [datagram (ackBytes 42 (-2147483648))])
    64 42 1 okSocket).1
    ⟨readHdr (ackBytes 42 (-2147483648)) 0,
      ⟨readI32 (ackBytes 42 (-2147483648)) 16, readHdr (ackBytes 42 (-2147483648)) 20⟩⟩
    ((okSocket.receive_nlmsgerr (script 0 [datagram (ackBytes 42 (-2147483648))])
      [NLMSG_ERROR] 64 1).get (by decide)).2
    (by decide) (by decide)).1 (by decide)
  rw [h, h2]
  exact ⟨by decide, by decide⟩

/-- Witness for C10: a short write, a read error and an acknowledgement for
another sequence number each leave the flag of a usable handle unset, and a
handle whose `bind` failed stays failed. -/
theorem mFailed_fixed_by_construction_witness :
    (okSocket.send (script 12 []) ⟨hdrBytes 16 18 5 42 0⟩ sockaddr_nl.zero).2.mFailed
        = okSocket.mFailed
    ∧ ((okSocket.receiveAck (script 0 [datagram (ackBytes 41 (-13))]) 64 42 1).get
        (by decide)).2.mFailed = okSocket.mFailed
    ∧ ((okSocket.receive_msgtypes (script 0 []) [NLMSG_ERROR] 64 1).get
        (by decide)).2.mFailed = okSocket.mFailed
    ∧ failedSocket.mFailed = true
    ∧ (failedSocket.getPid (script 0 [])).2.mFailed = failedSocket.mFailed :=
  ⟨(mFailed_fixed_by_construction (script 12 []) okSocket).2.1 _ _,
   (mFailed_fixed_by_construction (script 0 [datagram (ackBytes 41 (-13))]) okSocket).2.2.2.2.2.1
      64 42 1 false _ (by decide),
   (mFailed_fixed_by_construction (script 0 []) okSocket).2.2.2.2.1
      [NLMSG_ERROR] 64 1 none _ (by decide),
   ((mFailed_fixed_by_construction (script 0 []) failedSocket).1 3 (-1) 0 0 0).2
      (Or.inr (by decide)),
   (mFailed_fixed_by_construction (script 0 []) failedSocket).2.2.2.2.2.2⟩

end android.nl
